import Mathlib

/-!
Shallow embedding of the dictionary-api service (`src/main.py`): a read-only
HTTP layer over a single SQLite table `translations`.  Rows are modelled as
lists of SQLite values aligned with the table's column list; each endpoint is
embedded as a function that returns its result together with the list of
store effects (connection open, statement execution, connection close) it
performs, mirroring the `try`/`finally` control flow of the handlers.
-/

deriving instance DecidableEq for Except

namespace DictApi

/-- Python's `str.strip()` on a character list: drop leading and trailing
whitespace. -/
def stripChars (l : List Char) : List Char :=
  ((l.dropWhile Char.isWhitespace).reverse.dropWhile Char.isWhitespace).reverse

/-- Python's `query.strip()`. -/
def pyStrip (s : String) : String :=
  ⟨stripChars s.data⟩

/-- Python's `name.lower()` (ASCII folding, character by character). -/
def strLower (s : String) : String :=
  ⟨s.data.map Char.toLower⟩

/-- SQLite cell value as seen by the service: NULL, an integer, or text. -/
inductive DBValue
  | null
  | intVal (n : Int)
  | textVal (s : String)
  deriving DecidableEq, Repr

/-- A reachable dictionary database: the `translations` table's ordered column
names and its rows, each row aligned positionally with the schema.  An empty
`schema` models a missing table (SQLite's `PRAGMA table_info` then returns no
rows). -/
structure DB where
  schema : List String
  rows : List (List DBValue)
  deriving DecidableEq, Repr

/-- The store as seen by `get_db_connection`: `none` models an unreachable
database (`aiosqlite.connect` raises). -/
def Store := Option DB

/-- Store effects performed by a handler, in order. -/
inductive Effect
  | openConn
  | execQuery
  | closeConn
  deriving DecidableEq, Repr

/-- Errors a handler can propagate to the HTTP layer. -/
inductive ApiError
  | connectionError
  | noSuchColumn (name : String)
  | validationError (field : String)
  deriving DecidableEq, Repr

/-- Response shape of `/search` (`TranslationEntry` in `main.py`): the
identifier plus the remaining columns as an ordered mapping. -/
structure TranslationEntry where
  entry_id : Int
  translations : List (String × Option String)
  deriving DecidableEq, Repr

/-- Text rendering of a cell, as SQLite's `LIKE` and the row-to-JSON
conversion see it: NULL has no text, integers render in decimal. -/
def DBValue.asText : DBValue → Option String
  | .null => none
  | .intVal n => some (toString n)
  | .textVal s => some s

/-- Decimal digit run to a natural number, `none` when empty or non-digit. -/
def digitsToNat : List Char → Option Nat
  | [] => none
  | l =>
      l.foldl
        (fun acc c =>
          match acc with
          | none => none
          | some n => if c.isDigit then some (n * 10 + (c.toNat - 48)) else none)
        (some 0)

/-- Python's `int(text)` on a plain decimal numeral, possibly negative
(as pydantic applies it when coercing text to an `int` field). -/
def parseIntL : List Char → Option Int
  | '-' :: rest => (digitsToNat rest).map (fun n => -(n : Int))
  | l => (digitsToNat l).map (fun n => (n : Int))

/-- Integer reading of a cell, as pydantic's lax `int` field validation sees
it: integers pass through, text passes when it parses as an integer, NULL is
rejected. -/
def DBValue.asInt : DBValue → Option Int
  | .null => none
  | .intVal n => some n
  | .textVal s => parseIntL s.data

/-- SQLite `LIKE` matching over character lists, default (no `ESCAPE`)
semantics: `%` matches any run, `_` matches one character, other characters
match case-insensitively (ASCII folding, as SQLite does by default). -/
def likeMatchL : List Char → List Char → Bool
  | [], s => s.isEmpty
  | p :: ps, s =>
    if p = '%' then
      (List.range (s.length + 1)).any (fun i => likeMatchL ps (s.drop i))
    else
      match s with
      | [] => false
      | c :: cs =>
        if p = '_' then likeMatchL ps cs
        else (p.toLower == c.toLower) && likeMatchL ps cs

/-- SQLite `value LIKE pattern` on strings. -/
def likeMatch (pat s : String) : Bool :=
  likeMatchL pat.data s.data

/-- A pattern fragment free of the `LIKE` metacharacters `%` and `_`. -/
def noMeta (l : List Char) : Bool :=
  l.all (fun c => c != '%' && c != '_')

/-- Case-insensitive "starts with": `pre` is a prefix of `s` up to ASCII case. -/
def startsWithCI (s pre : String) : Bool :=
  decide (pre.data.map Char.toLower <+: s.data.map Char.toLower)

/-- Case-insensitive "contains": `sub` is a substring of `s` up to ASCII case. -/
def containsCI (s sub : String) : Bool :=
  decide (sub.data.map Char.toLower <:+: s.data.map Char.toLower)

/-- Cell of `row` in the column named `col` (`sqlite3.Row` indexing by the
declared column name). -/
def rowCell (schema : List String) (row : List DBValue) (col : String) : Option DBValue :=
  match schema.findIdx? (· == col) with
  | none => none
  | some i => row.get? i

/-- Text of the `lang` column of `row`, `none` when the cell is NULL or the
column is absent. -/
def cellText (db : DB) (lang : String) (row : List DBValue) : Option String :=
  (rowCell db.schema row lang).bind DBValue.asText

/-- Identifier-like column names excluded from `/languages`
(`excluded_columns` in `main.py`). -/
def excluded_columns : List String := ["id", "entryid", "rowid"]

/-- Pure result of `/languages`: column names whose lowercase form is not in
the exclusion list, in schema order. -/
def get_available_languages (db : DB) : List String :=
  db.schema.filter (fun c => !excluded_columns.contains (strLower c))

/-- The `/languages` handler: opens a connection, runs `PRAGMA table_info`,
closes the connection in `finally`. -/
def get_available_languages_op (store : Store) :
    Except ApiError (List String) × List Effect :=
  match store with
  | none => (.error .connectionError, [])
  | some db =>
      (.ok (get_available_languages db), [.openConn, .execQuery, .closeConn])

/-- Row-to-response conversion of `/search`: `RawDBEntry.parse_obj(dict(result))`
requires the exact key `ID` with an int-coercible value, then the response
keeps every other key (comparison with `ID` is case-sensitive) in the
`translations` mapping. -/
def shape_entry (schema : List String) (row : List DBValue) :
    Except ApiError TranslationEntry :=
  match (rowCell schema row "ID").bind DBValue.asInt with
  | none => .error (.validationError "ID")
  | some n =>
      .ok { entry_id := n,
            translations :=
              (schema.zip row).filterMap
                (fun kv => if kv.1 ≠ "ID" then some (kv.1, kv.2.asText) else none) }

/-- Does `row` satisfy `"lang" LIKE pat` (NULL never matches)? -/
def row_matches (db : DB) (pat lang : String) (row : List DBValue) : Bool :=
  match cellText db lang row with
  | none => false
  | some s => likeMatch pat s

/-- The `/search/{from_language}/{query}` handler: one `SELECT * ... WHERE
"{from_language}" LIKE '%' + query.strip() + '%' ... LIMIT 1`, shaping the
row (if any) through `RawDBEntry`; the connection is closed in `finally` on
every path after a successful open. -/
def search_translation (store : Store) (from_language query : String) :
    Except ApiError (Option TranslationEntry) × List Effect :=
  match store with
  | none => (.error .connectionError, [])
  | some db =>
      if from_language ∈ db.schema then
        let pat := "%" ++ pyStrip query ++ "%"
        match db.rows.find? (row_matches db pat from_language) with
        | none => (.ok none, [.openConn, .execQuery, .closeConn])
        | some row =>
            match shape_entry db.schema row with
            | .ok e => (.ok (some e), [.openConn, .execQuery, .closeConn])
            | .error err => (.error err, [.openConn, .execQuery, .closeConn])
      else (.error (.noSuchColumn from_language), [.openConn, .execQuery, .closeConn])

/-- The `/suggest/{from_language}/{query}` handler: empty or all-whitespace
query short-circuits before any store access; otherwise one `SELECT
"{from_language}" ... WHERE "{from_language}" LIKE query.strip() + '%' ...
LIMIT 10`, returning the selected column of each matched row. -/
def get_search_suggestions (store : Store) (from_language query : String) :
    Except ApiError (List String) × List Effect :=
  if pyStrip query = "" then (.ok [], [])
  else
    match store with
    | none => (.error .connectionError, [])
    | some db =>
        if from_language ∈ db.schema then
          let pat := pyStrip query ++ "%"
          let vals := db.rows.filterMap (fun row =>
            match cellText db from_language row with
            | none => none
            | some s => if likeMatch pat s then some s else none)
          (.ok (vals.take 10), [.openConn, .execQuery, .closeConn])
        else (.error (.noSuchColumn from_language), [.openConn, .execQuery, .closeConn])

/-- Response shape of `/test-db`: a status payload; `columns` and `first_row`
are present only on the fully successful path. -/
structure TestDbResult where
  status : String
  detail : String
  columns : Option (List String)
  first_row : Option (List (String × DBValue))
  deriving DecidableEq, Repr

/-- Body of `/test-db` up to its `except` handler: `.error` models a raised
exception (connection failure, or the explicit `raise` on an empty column
list); the missing-`ID` diagnostic is a returned `ERROR` payload, not a
raise.  Traces include the `finally` close whenever the open succeeded. -/
def test_db_attempt (store : Store) :
    Except String TestDbResult × List Effect :=
  match store with
  | none => (.error "unable to open database file", [])
  | some db =>
      if db.schema.isEmpty then
        (.error "The table 'translations' was found, but it has no columns or does not exist.",
         [.openConn, .execQuery, .closeConn])
      else
        match db.rows.head? with
        | none =>
            (.ok { status := "SUCCESS",
                   detail := "Connected to DB and table 'translations', but the table is empty.",
                   columns := none, first_row := none },
             [.openConn, .execQuery, .execQuery, .closeConn])
        | some row =>
            if "ID" ∈ db.schema then
              (.ok { status := "SUCCESS",
                     detail := "Database connection and basic query are working correctly.",
                     columns := some db.schema,
                     first_row := some (db.schema.zip row) },
               [.openConn, .execQuery, .execQuery, .closeConn])
            else
              (.ok { status := "ERROR",
                     detail := "The column 'ID' was not found.",
                     columns := none, first_row := none },
               [.openConn, .execQuery, .execQuery, .closeConn])

/-- The `except Exception` handler of `/test-db`: a raised exception becomes
an `ERROR` payload carrying the exception's message. -/
def catchErrors (r : Except String TestDbResult × List Effect) :
    TestDbResult × List Effect :=
  match r with
  | (.ok res, tr) => (res, tr)
  | (.error msg, tr) =>
      ({ status := "ERROR", detail := msg, columns := none, first_row := none }, tr)

/-- The `/test-db` handler: every exception from the body is caught and
reported as an `ERROR` payload, so the handler is total. -/
def test_database_connection (store : Store) : TestDbResult × List Effect :=
  catchErrors (test_db_attempt store)

/-- A handler's effect trace opens at most one connection and closes it
before returning. -/
def well_bracketed (tr : List Effect) : Prop :=
  tr.count .openConn = tr.count .closeConn ∧
  tr.count .openConn ≤ 1 ∧
  (Effect.openConn ∈ tr → tr.getLast? = some .closeConn)

/-! Bridge lemmas relating SQLite `LIKE` matching to case-insensitive
prefix/substring relations, for metacharacter-free patterns. -/

/-- Unfolding of `likeMatchL` at a leading `%`. -/
theorem likeMatchL_percent_cons (ps s : List Char) :
    likeMatchL ('%' :: ps) s =
      (List.range (s.length + 1)).any (fun i => likeMatchL ps (s.drop i)) := by
  simp [likeMatchL]

/-- Unfolding of `likeMatchL` at a non-`%` pattern head against the empty
string. -/
theorem likeMatchL_ne_nil (p : Char) (ps : List Char) (hp : p ≠ '%') :
    likeMatchL (p :: ps) [] = false := by
  simp [likeMatchL, hp]

/-- Unfolding of `likeMatchL` at an ordinary (non-wildcard) pattern head. -/
theorem likeMatchL_ne_cons (p : Char) (ps : List Char) (c : Char) (cs : List Char)
    (hp : p ≠ '%') (hp2 : p ≠ '_') :
    likeMatchL (p :: ps) (c :: cs) =
      ((p.toLower == c.toLower) && likeMatchL ps cs) := by
  simp [likeMatchL, hp, hp2]

/-- A lone `%` pattern matches every string. -/
theorem likeMatchL_percent (s : List Char) : likeMatchL ['%'] s = true := by
  rw [likeMatchL_percent_cons]
  simp only [List.any_eq_true, List.mem_range]
  exact ⟨s.length, Nat.lt_succ_self _, by simp [likeMatchL]⟩

/-- The pattern `%%` (empty trimmed query wrapped in wildcards) matches every
string. -/
theorem likeMatchL_percent_percent (s : List Char) :
    likeMatchL ['%', '%'] s = true := by
  rw [likeMatchL_percent_cons]
  simp only [List.any_eq_true, List.mem_range]
  exact ⟨0, Nat.succ_pos _, by simpa using likeMatchL_percent (s.drop 0)⟩

/-- Matching a metacharacter-free fragment followed by `%` is exactly
case-insensitive prefix matching. -/
theorem likeMatchL_append_percent (q : List Char) (h : noMeta q = true) (s : List Char) :
    likeMatchL (q ++ ['%']) s = true ↔
      q.map Char.toLower <+: s.map Char.toLower := by
  induction q generalizing s with
  | nil => simp [likeMatchL_percent]
  | cons a as ih =>
      simp only [noMeta, List.all_cons, Bool.and_eq_true, bne_iff_ne, ne_eq] at h
      obtain ⟨⟨ha1, ha2⟩, has⟩ := h
      cases s with
      | nil =>
          rw [List.cons_append, likeMatchL_ne_nil a _ ha1]
          simp
      | cons c cs =>
          rw [List.cons_append, likeMatchL_ne_cons a _ c cs ha1 ha2]
          simp [ih (by simpa [noMeta] using has) cs]

/-- Matching `%` + fragment + `%` for a metacharacter-free fragment is exactly
case-insensitive substring matching. -/
theorem likeMatchL_sandwich (q : List Char) (h : noMeta q = true) (s : List Char) :
    likeMatchL ('%' :: (q ++ ['%'])) s = true ↔
      q.map Char.toLower <:+: s.map Char.toLower := by
  rw [likeMatchL_percent_cons]
  simp only [List.any_eq_true, List.mem_range]
  constructor
  · intro hm
    obtain ⟨i, _, hi⟩ := hm
    rw [likeMatchL_append_percent q h, List.map_drop] at hi
    exact List.infix_iff_prefix_suffix.mpr ⟨_, hi, List.drop_suffix i _⟩
  · intro hm
    obtain ⟨t, hpre, u, hu⟩ := List.infix_iff_prefix_suffix.mp hm
    have hlen : u.length ≤ s.length := by
      have := congrArg List.length hu
      simp only [List.length_append, List.length_map] at this
      omega
    refine ⟨u.length, Nat.lt_succ_of_le hlen, ?_⟩
    rw [likeMatchL_append_percent q h, List.map_drop, ← hu, List.drop_left]
    exact hpre

/-- Character list of the `/search` pattern `'%' + q + '%'`. -/
theorem data_sandwich_pat (q : String) :
    ("%" ++ q ++ "%").data = '%' :: (q.data ++ ['%']) := by
  simp [String.data_append]

/-- Character list of the `/suggest` pattern `q + '%'`. -/
theorem data_prefix_pat (q : String) :
    (q ++ "%").data = q.data ++ ['%'] := by
  simp [String.data_append]

/-- The `/search` `LIKE` test agrees with case-insensitive substring search
when the trimmed query has no wildcard. -/
theorem likeMatch_sandwich_iff (q s : String) (h : noMeta q.data = true) :
    likeMatch ("%" ++ q ++ "%") s = true ↔ containsCI s q = true := by
  rw [likeMatch, data_sandwich_pat, likeMatchL_sandwich q.data h s.data, containsCI]
  simp

/-- The `/suggest` `LIKE` test agrees with case-insensitive prefix search when
the trimmed query has no wildcard. -/
theorem likeMatch_prefix_iff (q s : String) (h : noMeta q.data = true) :
    likeMatch (q ++ "%") s = true ↔ startsWithCI s q = true := by
  rw [likeMatch, data_prefix_pat, likeMatchL_append_percent q.data h s.data, startsWithCI]
  simp

/-- Keys of the `translations` mapping built by `shape_entry`: every schema
column except the exact name `ID`, in schema order (rows carry at least one
value per column). -/
theorem shape_keys (schema : List String) (row : List DBValue)
    (hlen : schema.length ≤ row.length) :
    ((schema.zip row).filterMap
        (fun kv => if kv.1 ≠ "ID" then some (kv.1, kv.2.asText) else none)).map Prod.fst
      = schema.filter (fun c => c != "ID") := by
  induction schema generalizing row with
  | nil => simp
  | cons c cs ih =>
      cases row with
      | nil => simp at hlen
      | cons v vs =>
          simp only [List.zip_cons_cons, List.filterMap_cons, List.filter_cons]
          by_cases hc : c = "ID"
          · subst hc
            simpa using ih vs (by simpa using hlen)
          · simp only [if_pos hc, List.map_cons, hc, bne_iff_ne, ne_eq,
              not_false_eq_true, if_pos]
            rw [ih vs (by simpa using hlen)]

/-- When the only identifier-like column name is the exact `ID`, dropping `ID`
from the schema is the same as the `/languages` filter. -/
theorem filter_ID_eq_languages (db : DB)
    (honly : ∀ c ∈ db.schema, strLower c ∈ excluded_columns → c = "ID") :
    db.schema.filter (fun c => c != "ID") = get_available_languages db := by
  unfold get_available_languages
  apply List.filter_congr
  intro c hc
  by_cases h : c = "ID"
  · subst h
    decide
  · have hnot : strLower c ∉ excluded_columns := fun hmem => h (honly c hc hmem)
    simp [h, hnot]

/-- Membership in the language list implies membership in the schema. -/
theorem mem_schema_of_mem_languages (db : DB) (c : String)
    (h : c ∈ get_available_languages db) : c ∈ db.schema :=
  List.mem_of_mem_filter h

/-- Characterisation of membership in the `/languages` result. -/
theorem mem_languages_iff (db : DB) (c : String) :
    c ∈ get_available_languages db ↔
      c ∈ db.schema ∧ strLower c ∉ excluded_columns := by
  unfold get_available_languages
  rw [List.mem_filter]
  simp

/-! Example stores used to instantiate and refute the claims. -/

/-- Store of the spec's scenario with the identifier column named `ID` as the
code's `RawDBEntry` model requires. -/
def dbC2 : DB :=
  ⟨["ID", "english", "french"], [[.intVal 1, .textVal "cat", .textVal "chat"]]⟩

/-- Store of the spec's scenario taken literally: identifier column named
`id` in lowercase. -/
def dbC2_lower : DB :=
  ⟨["id", "english", "french"], [[.intVal 1, .textVal "cat", .textVal "chat"]]⟩

/-- Store with a column literally named `entryid` besides `ID`. -/
def dbC1 : DB :=
  ⟨["ID", "entryid", "english"], [[.intVal 1, .textVal "x", .textVal "cat"]]⟩

/-- Store for refuting the prefix reading of `/suggest`. -/
def dbC3 : DB := ⟨["ID", "english"], [[.intVal 1, .textVal "cat"]]⟩

/-- Store for refuting the substring reading of `/search`. -/
def dbC4 : DB := ⟨["ID", "english"], [[.intVal 1, .textVal "xyz"]]⟩

/-- Store whose `ID` column holds the text value `"7"`. -/
def dbC9 : DB := ⟨["ID", "english"], [[.textVal "7", .textVal "cat"]]⟩

/-- Definitional behaviour of `/suggest` on a reachable store. -/
theorem get_search_suggestions_some (db : DB) (lang q : String) :
    get_search_suggestions (some db) lang q =
      (if pyStrip q = "" then (Except.ok [], [])
       else if lang ∈ db.schema then
        (Except.ok ((db.rows.filterMap (fun row =>
            match cellText db lang row with
            | none => none
            | some s => if likeMatch (pyStrip q ++ "%") s then some s else none)).take 10),
         [.openConn, .execQuery, .closeConn])
       else (.error (.noSuchColumn lang), [.openConn, .execQuery, .closeConn])) := rfl

/-- A successful `/search` result comes from the first matching row, shaped
by `shape_entry`. -/
theorem search_ok_some (db : DB) (lang q : String) (e : TranslationEntry)
    (h : (search_translation (some db) lang q).1 = Except.ok (some e)) :
    ∃ row, db.rows.find? (row_matches db ("%" ++ pyStrip q ++ "%") lang) = some row ∧
      shape_entry db.schema row = Except.ok e := by
  by_cases hs : lang ∈ db.schema
  · simp only [search_translation, if_pos hs] at h
    cases hfind : db.rows.find? (row_matches db ("%" ++ pyStrip q ++ "%") lang) with
    | none => rw [hfind] at h; simp at h
    | some row =>
        rw [hfind] at h
        dsimp only at h
        cases hshape : shape_entry db.schema row with
        | error err => rw [hshape] at h; simp at h
        | ok e' =>
            rw [hshape] at h
            simp only [Except.ok.injEq, Option.some.injEq] at h
            exact ⟨row, rfl, by rw [hshape, h]⟩
  · simp [search_translation, hs] at h

/-- Decomposition of a successful `shape_entry`. -/
theorem shape_entry_ok (schema : List String) (row : List DBValue) (e : TranslationEntry)
    (h : shape_entry schema row = Except.ok e) :
    ∃ n, (rowCell schema row "ID").bind DBValue.asInt = some n ∧
      e.entry_id = n ∧
      e.translations = (schema.zip row).filterMap
        (fun kv => if kv.1 ≠ "ID" then some (kv.1, kv.2.asText) else none) := by
  unfold shape_entry at h
  cases hid : (rowCell schema row "ID").bind DBValue.asInt with
  | none => rw [hid] at h; simp at h
  | some n =>
      rw [hid] at h
      simp only [Except.ok.injEq] at h
      subst h
      exact ⟨n, rfl, rfl, rfl⟩

/-- The `/search` result as a function of the first matching row. -/
theorem search_result_cases (db : DB) (lang q : String) (hs : lang ∈ db.schema) :
    (search_translation (some db) lang q).1 =
      (match db.rows.find? (row_matches db ("%" ++ pyStrip q ++ "%") lang) with
       | none => Except.ok none
       | some row => (shape_entry db.schema row).map some) := by
  simp only [search_translation, if_pos hs]
  cases hfind : db.rows.find? (row_matches db ("%" ++ pyStrip q ++ "%") lang) with
  | none => rfl
  | some row =>
      dsimp only
      cases hshape : shape_entry db.schema row with
      | ok e => rfl
      | error err => rfl

/-- C1 counterexample: on a store with a column literally named `entryid`
besides `ID`, the returned entry's `translations` keys are not the Language
Set: the identifier-named column `entryid` appears in the mapping although
`/languages` excludes it. -/
theorem spec_C1_counterexample :
    (search_translation (some dbC1) "english" "cat").1 =
      Except.ok (some ⟨1, [("entryid", some "x"), ("english", some "cat")]⟩) ∧
    get_available_languages dbC1 = ["english"] := by
  exact ⟨by decide, by decide⟩

/-- C1 amended: for every store, the key set of a returned entry's
`translations` mapping is the store's column names minus exactly the column
named `ID`, in schema order, and `ID` itself never appears among the keys;
this key set coincides with the Language Set — so the searched column is
included and no identifier-named column appears — exactly under the proviso
that `ID` is the only schema column whose lowercase form is in the exclusion
list. -/
theorem spec_C1_amended (db : DB) (lang q : String) (e : TranslationEntry)
    (hwf : ∀ r ∈ db.rows, db.schema.length ≤ r.length)
    (h : (search_translation (some db) lang q).1 = Except.ok (some e)) :
    e.translations.map Prod.fst = db.schema.filter (fun c => c != "ID") ∧
    "ID" ∉ e.translations.map Prod.fst ∧
    ((∀ c ∈ db.schema, strLower c ∈ excluded_columns → c = "ID") →
      e.translations.map Prod.fst = get_available_languages db ∧
      (lang ∈ get_available_languages db → lang ∈ e.translations.map Prod.fst)) := by
  obtain ⟨row, hfind, hshape⟩ := search_ok_some db lang q e h
  obtain ⟨n, hid, hent, htr⟩ := shape_entry_ok db.schema row e hshape
  have hrow := List.mem_of_find?_eq_some hfind
  have hlen := hwf row hrow
  have hkeys : e.translations.map Prod.fst = db.schema.filter (fun c => c != "ID") := by
    rw [htr]
    exact shape_keys db.schema row hlen
  refine ⟨hkeys, ?_, ?_⟩
  · rw [hkeys]
    intro hmem
    have := List.of_mem_filter hmem
    simp at this
  · intro honly
    have hlang : e.translations.map Prod.fst = get_available_languages db := by
      rw [hkeys]
      exact filter_ID_eq_languages db honly
    exact ⟨hlang, fun hm => by rw [hlang]; exact hm⟩

/-- Witness for C1 amended, at the scenario store. -/
theorem spec_C1_witness :
    (⟨1, [("english", some "cat"), ("french", some "chat")]⟩ :
        TranslationEntry).translations.map Prod.fst =
      dbC2.schema.filter (fun c => c != "ID") ∧
    "ID" ∉ (⟨1, [("english", some "cat"), ("french", some "chat")]⟩ :
        TranslationEntry).translations.map Prod.fst ∧
    ((∀ c ∈ dbC2.schema, strLower c ∈ excluded_columns → c = "ID") →
      (⟨1, [("english", some "cat"), ("french", some "chat")]⟩ :
          TranslationEntry).translations.map Prod.fst = get_available_languages dbC2 ∧
      ("english" ∈ get_available_languages dbC2 →
        "english" ∈ (⟨1, [("english", some "cat"), ("french", some "chat")]⟩ :
          TranslationEntry).translations.map Prod.fst)) :=
  spec_C1_amended dbC2 "english" "CA" _ (by decide) (by decide)

/-- C5: for every store schema, the `/languages` result is the column list in
stored order with exactly the names whose lowercase form is `id`, `entryid`
or `rowid` removed; no returned name is identifier-like in any letter case. -/
theorem spec_C5 (db : DB) :
    List.Sublist (get_available_languages db) db.schema ∧
    (∀ c ∈ get_available_languages db,
        strLower c ≠ "id" ∧ strLower c ≠ "entryid" ∧ strLower c ≠ "rowid") ∧
    (∀ c ∈ db.schema,
        strLower c ≠ "id" → strLower c ≠ "entryid" → strLower c ≠ "rowid" →
          c ∈ get_available_languages db) := by
  refine ⟨List.filter_sublist _, ?_, ?_⟩
  · intro c hc
    have h := (mem_languages_iff db c).mp hc
    have h2 := h.2
    simp only [excluded_columns, List.mem_cons, List.not_mem_nil, or_false,
      not_or] at h2
    exact ⟨h2.1, h2.2.1, h2.2.2⟩
  · intro c hc h1 h2 h3
    refine (mem_languages_iff db c).mpr ⟨hc, ?_⟩
    simp only [excluded_columns, List.mem_cons, List.not_mem_nil, or_false, not_or]
    exact ⟨h1, h2, h3⟩

/-- Witness for C5 at a concrete store. -/
theorem spec_C5_witness : "english" ∈ get_available_languages dbC2 :=
  (spec_C5 dbC2).2.2 "english" (by decide) (by decide) (by decide) (by decide)

/-- C6: an empty or all-whitespace query makes `/suggest` return the empty
list with no store effect (no connection opened, no statement run) and no
error, for every store state. -/
theorem spec_C6 (store : Store) (lang q : String) (hq : pyStrip q = "") :
    get_search_suggestions store lang q = (Except.ok [], []) := by
  unfold get_search_suggestions
  rw [if_pos hq]

/-- Witness for C6 at a concrete store and whitespace query. -/
theorem spec_C6_witness :
    get_search_suggestions (some dbC2) "english" "   " = (Except.ok [], []) :=
  spec_C6 (some dbC2) "english" "   " (by decide)

/-- C3 counterexample: the query reaches the store as a `LIKE` pattern, so a
`_` wildcard in the query produces suggestions that do not start with the
trimmed query: `/suggest/english/c_` returns `cat` although `english` is in
the Language Set and `cat` does not start with `c_`. -/
theorem spec_C3_counterexample :
    (get_search_suggestions (some dbC3) "english" "c_").1 = Except.ok ["cat"] ∧
    startsWithCI "cat" (pyStrip "c_") = false ∧
    "english" ∈ get_available_languages dbC3 := by
  exact ⟨by decide, by decide, by decide⟩

/-- C3 amended: provided the trimmed query contains no `LIKE` wildcard (`%`
or `_`), every `/suggest` success returns at most 10 strings, each starting
with the trimmed query case-insensitively, and each being the searched
column's stored text for some row. -/
theorem spec_C3_amended (db : DB) (lang q : String) (res : List String)
    (tr : List Effect) (hmeta : noMeta (pyStrip q).data = true)
    (h : get_search_suggestions (some db) lang q = (Except.ok res, tr)) :
    res.length ≤ 10 ∧
    ∀ s ∈ res, startsWithCI s (pyStrip q) = true ∧
      ∃ row ∈ db.rows, cellText db lang row = some s := by
  rw [get_search_suggestions_some] at h
  by_cases hq : pyStrip q = ""
  · rw [if_pos hq] at h
    simp only [Prod.mk.injEq, Except.ok.injEq] at h
    obtain ⟨h1, -⟩ := h
    subst h1
    simp
  · rw [if_neg hq] at h
    by_cases hs : lang ∈ db.schema
    · rw [if_pos hs] at h
      simp only [Prod.mk.injEq, Except.ok.injEq] at h
      obtain ⟨hres, -⟩ := h
      subst hres
      constructor
      · exact List.length_take_le 10 _
      · intro s hsmem
        have hvals := List.take_subset 10 _ hsmem
        obtain ⟨row, hrow, hf⟩ := List.mem_filterMap.mp hvals
        cases hct : cellText db lang row with
        | none => rw [hct] at hf; simp at hf
        | some t =>
            rw [hct] at hf
            by_cases hlm : likeMatch (pyStrip q ++ "%") t = true
            · simp only [hlm, if_true, Option.some.injEq] at hf
              subst hf
              refine ⟨?_, row, hrow, hct⟩
              exact (likeMatch_prefix_iff _ _ hmeta).mp hlm
            · simp [hlm] at hf
    · rw [if_neg hs] at h
      simp at h

/-- Witness for C3 amended at a concrete store and wildcard-free query. -/
theorem spec_C3_witness :
    (["cat"] : List String).length ≤ 10 ∧
    ∀ s ∈ (["cat"] : List String), startsWithCI s (pyStrip "ca") = true ∧
      ∃ row ∈ dbC3.rows, cellText dbC3 "english" row = some s :=
  spec_C3_amended dbC3 "english" "ca" ["cat"]
    [.openConn, .execQuery, .closeConn] (by decide) (by decide)

/-- C4 counterexample: a `%` wildcard in the query acts as a `LIKE`
metacharacter, so `/search/english/x%z` returns the `xyz` row although no
row's `english` column contains `x%z` as a substring (where the claim says
null must be returned). -/
theorem spec_C4_counterexample :
    (search_translation (some dbC4) "english" "x%z").1 =
      Except.ok (some ⟨1, [("english", some "xyz")]⟩) ∧
    containsCI "xyz" (pyStrip "x%z") = false ∧
    "english" ∈ get_available_languages dbC4 := by
  exact ⟨by decide, by decide, by decide⟩

/-- C4 amended: for a language in the Language Set and a query whose trimmed
form has no `LIKE` wildcard, `/search` returns null exactly when no row's
searched column contains the trimmed query case-insensitively; a no-match
outcome is the explicit null result, not an error. -/
theorem spec_C4_amended (db : DB) (lang q : String)
    (hlang : lang ∈ get_available_languages db)
    (hmeta : noMeta (pyStrip q).data = true) :
    ((search_translation (some db) lang q).1 = Except.ok none ↔
      ∀ row ∈ db.rows, ∀ s, cellText db lang row = some s →
        containsCI s (pyStrip q) = false) := by
  have hs := mem_schema_of_mem_languages db lang hlang
  rw [search_result_cases db lang q hs]
  cases hfind : db.rows.find? (row_matches db ("%" ++ pyStrip q ++ "%") lang) with
  | none =>
      rw [List.find?_eq_none] at hfind
      refine iff_of_true rfl ?_
      intro row hrow s hct
      have hnm := hfind row hrow
      unfold row_matches at hnm
      rw [hct] at hnm
      dsimp only at hnm
      cases hcc : containsCI s (pyStrip q) with
      | false => rfl
      | true =>
          exact absurd ((likeMatch_sandwich_iff (pyStrip q) s hmeta).mpr hcc) hnm
  | some row =>
      refine iff_of_false ?_ ?_
      · show ¬ Except.map some (shape_entry db.schema row) = Except.ok none
        cases hshape : shape_entry db.schema row with
        | ok e => simp [Except.map]
        | error err => simp [Except.map]
      · intro hall
        have hrow := List.mem_of_find?_eq_some hfind
        have hm := List.find?_some hfind
        unfold row_matches at hm
        cases hct : cellText db lang row with
        | none => rw [hct] at hm; simp at hm
        | some s =>
            rw [hct] at hm
            dsimp only at hm
            have hfalse := hall row hrow s hct
            have hcc := (likeMatch_sandwich_iff (pyStrip q) s hmeta).mp hm
            rw [hcc] at hfalse
            exact absurd hfalse (by decide)

/-- Witness for C4 amended at the scenario store. -/
theorem spec_C4_witness :
    ((search_translation (some dbC2) "english" "xyz").1 = Except.ok none ↔
      ∀ row ∈ dbC2.rows, ∀ s, cellText dbC2 "english" row = some s →
        containsCI s (pyStrip "xyz") = false) :=
  spec_C4_amended dbC2 "english" "xyz" (by decide) (by decide)

/-- Body of `/test-db` when the connection fails. -/
theorem test_db_attempt_none :
    test_db_attempt none = (.error "unable to open database file", []) := rfl

/-- Body of `/test-db` when the table has no columns: the explicit `raise`. -/
theorem test_db_attempt_empty_schema (db : DB) (h : db.schema = []) :
    test_db_attempt (some db) =
      (.error "The table 'translations' was found, but it has no columns or does not exist.",
       [.openConn, .execQuery, .closeConn]) := by
  simp [test_db_attempt, h]

/-- Body of `/test-db` on an empty table. -/
theorem test_db_attempt_empty_rows (db : DB) (hsch : ¬db.schema = []) (hrows : db.rows = []) :
    test_db_attempt (some db) =
      (.ok ⟨"SUCCESS", "Connected to DB and table 'translations', but the table is empty.",
            none, none⟩,
       [.openConn, .execQuery, .execQuery, .closeConn]) := by
  simp [test_db_attempt, hsch, hrows]

/-- Body of `/test-db` when the first row lacks an `ID` key: an `ERROR`
payload is returned, not raised. -/
theorem test_db_attempt_no_id (db : DB) (row : List DBValue) (rest : List (List DBValue))
    (hsch : ¬db.schema = []) (hrows : db.rows = row :: rest) (hid : "ID" ∉ db.schema) :
    test_db_attempt (some db) =
      (.ok ⟨"ERROR", "The column 'ID' was not found.", none, none⟩,
       [.openConn, .execQuery, .execQuery, .closeConn]) := by
  simp [test_db_attempt, hsch, hrows, hid]

/-- Body of `/test-db` on the fully successful path. -/
theorem test_db_attempt_ok (db : DB) (row : List DBValue) (rest : List (List DBValue))
    (hsch : ¬db.schema = []) (hrows : db.rows = row :: rest) (hid : "ID" ∈ db.schema) :
    test_db_attempt (some db) =
      (.ok ⟨"SUCCESS", "Database connection and basic query are working correctly.",
            some db.schema, some (db.schema.zip row)⟩,
       [.openConn, .execQuery, .execQuery, .closeConn]) := by
  simp [test_db_attempt, hsch, hrows, hid]

/-- C7: `/test-db` never propagates an exception: for every store state the
handler returns a status payload whose status is `SUCCESS` or `ERROR`, with a
nonempty message in the `ERROR` case; in particular an unreachable store, a
missing (column-less) table, and a first row lacking an `ID` column all
report `ERROR`, while an empty table and a well-formed table report
`SUCCESS`. -/
theorem spec_C7 :
    (∀ store : Store,
      ((test_database_connection store).1.status = "SUCCESS" ∨
        (test_database_connection store).1.status = "ERROR") ∧
      ((test_database_connection store).1.status = "ERROR" →
        (test_database_connection store).1.detail ≠ "")) ∧
    (test_database_connection none).1.status = "ERROR" ∧
    (∀ db : DB, db.schema = [] →
      (test_database_connection (some db)).1.status = "ERROR") ∧
    (∀ db : DB, db.schema ≠ [] → db.rows = [] →
      (test_database_connection (some db)).1.status = "SUCCESS") ∧
    (∀ db : DB, db.schema ≠ [] → db.rows ≠ [] → "ID" ∉ db.schema →
      (test_database_connection (some db)).1.status = "ERROR") ∧
    (∀ db : DB, db.schema ≠ [] → db.rows ≠ [] → "ID" ∈ db.schema →
      (test_database_connection (some db)).1.status = "SUCCESS") := by
  refine ⟨?_, rfl, ?_, ?_, ?_, ?_⟩
  · intro store
    cases store with
    | none => exact ⟨Or.inr rfl, fun _ => by decide⟩
    | some db =>
        unfold test_database_connection
        by_cases hsch : db.schema = []
        · rw [test_db_attempt_empty_schema db hsch]
          exact ⟨Or.inr rfl, fun _ => by decide⟩
        · cases hrows : db.rows with
          | nil =>
              rw [test_db_attempt_empty_rows db hsch hrows]
              exact ⟨Or.inl rfl, fun hco => absurd hco (by decide)⟩
          | cons row rest =>
              by_cases hid : "ID" ∈ db.schema
              · rw [test_db_attempt_ok db row rest hsch hrows hid]
                refine ⟨Or.inl rfl, fun _ => ?_⟩
                show ("Database connection and basic query are working correctly." : String) ≠ ""
                decide
              · rw [test_db_attempt_no_id db row rest hsch hrows hid]
                exact ⟨Or.inr rfl, fun _ => by decide⟩
  · intro db h
    unfold test_database_connection
    rw [test_db_attempt_empty_schema db h]
    rfl
  · intro db hsch hrows
    unfold test_database_connection
    rw [test_db_attempt_empty_rows db hsch hrows]
    rfl
  · intro db hsch hrows hid
    unfold test_database_connection
    cases hr : db.rows with
    | nil => exact absurd hr hrows
    | cons row rest =>
        rw [test_db_attempt_no_id db row rest hsch hr hid]
        rfl
  · intro db hsch hrows hid
    unfold test_database_connection
    cases hr : db.rows with
    | nil => exact absurd hr hrows
    | cons row rest =>
        rw [test_db_attempt_ok db row rest hsch hr hid]
        rfl

/-- Witness for C7 at the missing-table store. -/
theorem spec_C7_witness :
    (test_database_connection (some ⟨[], []⟩)).1.status = "ERROR" :=
  spec_C7.2.2.1 ⟨[], []⟩ rfl

/-- Trace of `/search` on a reachable store: one open, one statement, one
close, on every branch. -/
theorem search_translation_some_trace (db : DB) (lang q : String) :
    (search_translation (some db) lang q).2 =
      [Effect.openConn, Effect.execQuery, Effect.closeConn] := by
  by_cases hs : lang ∈ db.schema
  · simp only [search_translation, if_pos hs]
    cases hfind : db.rows.find? (row_matches db ("%" ++ pyStrip q ++ "%") lang) with
    | none => rfl
    | some row =>
        dsimp only
        cases hshape : shape_entry db.schema row with
        | ok e => rfl
        | error err => rfl
  · simp only [search_translation, if_neg hs]

/-- Trace of `/suggest`: either nothing (short-circuit or failed connect) or a
bracketed open-query-close. -/
theorem get_search_suggestions_trace (store : Store) (lang q : String) :
    (get_search_suggestions store lang q).2 = [] ∨
    (get_search_suggestions store lang q).2 =
      [Effect.openConn, Effect.execQuery, Effect.closeConn] := by
  cases store with
  | none =>
      unfold get_search_suggestions
      by_cases hq : pyStrip q = ""
      · rw [if_pos hq]; left; rfl
      · rw [if_neg hq]; left; rfl
  | some db =>
      rw [get_search_suggestions_some]
      by_cases hq : pyStrip q = ""
      · rw [if_pos hq]; left; rfl
      · rw [if_neg hq]
        by_cases hs : lang ∈ db.schema
        · rw [if_pos hs]; right; rfl
        · rw [if_neg hs]; right; rfl

/-- Trace of `/test-db`: nothing when the connect fails, otherwise a
bracketed open-queries-close. -/
theorem test_db_trace (store : Store) :
    (test_database_connection store).2 = [] ∨
    (test_database_connection store).2 =
      [Effect.openConn, Effect.execQuery, Effect.closeConn] ∨
    (test_database_connection store).2 =
      [Effect.openConn, Effect.execQuery, Effect.execQuery, Effect.closeConn] := by
  cases store with
  | none => left; rfl
  | some db =>
      unfold test_database_connection
      by_cases hsch : db.schema = []
      · rw [test_db_attempt_empty_schema db hsch]; right; left; rfl
      · cases hrows : db.rows with
        | nil =>
            rw [test_db_attempt_empty_rows db hsch hrows]; right; right; rfl
        | cons row rest =>
            by_cases hid : "ID" ∈ db.schema
            · rw [test_db_attempt_ok db row rest hsch hrows hid]; right; right; rfl
            · rw [test_db_attempt_no_id db row rest hsch hrows hid]; right; right; rfl

/-- The empty trace is well bracketed (no connection was opened). -/
theorem well_bracketed_nil : well_bracketed ([] : List Effect) := by
  unfold well_bracketed
  decide

/-- The open-query-close trace is well bracketed. -/
theorem well_bracketed_std :
    well_bracketed [Effect.openConn, Effect.execQuery, Effect.closeConn] := by
  unfold well_bracketed
  decide

/-- The open-query-query-close trace is well bracketed. -/
theorem well_bracketed_twoq :
    well_bracketed
      [Effect.openConn, Effect.execQuery, Effect.execQuery, Effect.closeConn] := by
  unfold well_bracketed
  decide

/-- C8: every handler's effect trace opens at most one connection and, when
it opens one, closes it as its final store action, for every store state and
input — success, empty result, or error. -/
theorem spec_C8 (store : Store) (lang q : String) :
    well_bracketed (get_available_languages_op store).2 ∧
    well_bracketed (search_translation store lang q).2 ∧
    well_bracketed (get_search_suggestions store lang q).2 ∧
    well_bracketed (test_database_connection store).2 := by
  refine ⟨?_, ?_, ?_, ?_⟩
  · cases store with
    | none => exact well_bracketed_nil
    | some db => exact well_bracketed_std
  · cases store with
    | none => exact well_bracketed_nil
    | some db => rw [search_translation_some_trace]; exact well_bracketed_std
  · rcases get_search_suggestions_trace store lang q with h | h
    · rw [h]; exact well_bracketed_nil
    · rw [h]; exact well_bracketed_std
  · rcases test_db_trace store with h | h | h
    · rw [h]; exact well_bracketed_nil
    · rw [h]; exact well_bracketed_std
    · rw [h]; exact well_bracketed_twoq

/-- Witness for C8 at a concrete store and query. -/
theorem spec_C8_witness :
    well_bracketed (search_translation (some dbC2) "english" "CA").2 :=
  (spec_C8 (some dbC2) "english" "CA").2.1

/-- Store used as the C10 witness. -/
def dbC10 : DB := ⟨["ID", "english"], [[.intVal 1, .textVal "cat"]]⟩

/-- C9 counterexample: `pydantic` coerces text to an `int` field, so a
matched row whose `ID` column holds the text value `"7"` (not an integer)
still yields a Translation Entry, with `entry_id` 7. -/
theorem spec_C9_counterexample :
    (search_translation (some dbC9) "english" "cat").1 =
      Except.ok (some ⟨7, [("english", some "cat")]⟩) := by decide

/-- C9 amended: `/search` produces an entry from a matched row only when the
row has a column named exactly `ID` (case-sensitive) whose value is an
integer or integer-formatted text (pydantic coercion); when the `ID` key is
missing, NULL, or non-numeric, the handler raises a validation error instead
of returning; on success `entry_id` is the coerced `ID` value and only the
exact key `ID` is removed from the `translations` mapping. -/
theorem spec_C9_amended (db : DB) (lang q : String) (hs : lang ∈ db.schema)
    (hwf : ∀ r ∈ db.rows, db.schema.length ≤ r.length) :
    ∀ row, db.rows.find? (row_matches db ("%" ++ pyStrip q ++ "%") lang) = some row →
      (((rowCell db.schema row "ID").bind DBValue.asInt = none →
        (search_translation (some db) lang q).1 =
          Except.error (ApiError.validationError "ID")) ∧
      ∀ n, (rowCell db.schema row "ID").bind DBValue.asInt = some n →
        ∃ e, (search_translation (some db) lang q).1 = Except.ok (some e) ∧
          e.entry_id = n ∧
          e.translations.map Prod.fst = db.schema.filter (fun c => c != "ID")) := by
  intro row hfind
  rw [search_result_cases db lang q hs, hfind]
  constructor
  · intro hid
    show Except.map some (shape_entry db.schema row) = _
    unfold shape_entry
    rw [hid]
    rfl
  · intro n hid
    refine ⟨⟨n, (db.schema.zip row).filterMap
        (fun kv => if kv.1 ≠ "ID" then some (kv.1, kv.2.asText) else none)⟩, ?_, rfl, ?_⟩
    · show Except.map some (shape_entry db.schema row) = _
      unfold shape_entry
      rw [hid]
      rfl
    · exact shape_keys db.schema row (hwf row (List.mem_of_find?_eq_some hfind))

/-- Witness for C9 amended at the scenario store. -/
theorem spec_C9_witness :
    (((rowCell dbC2.schema [DBValue.intVal 1, DBValue.textVal "cat", DBValue.textVal "chat"]
          "ID").bind DBValue.asInt = none →
      (search_translation (some dbC2) "english" "CA").1 =
        Except.error (ApiError.validationError "ID")) ∧
    ∀ n, (rowCell dbC2.schema [DBValue.intVal 1, DBValue.textVal "cat", DBValue.textVal "chat"]
          "ID").bind DBValue.asInt = some n →
      ∃ e, (search_translation (some dbC2) "english" "CA").1 = Except.ok (some e) ∧
        e.entry_id = n ∧
        e.translations.map Prod.fst = dbC2.schema.filter (fun c => c != "ID")) :=
  spec_C9_amended dbC2 "english" "CA" (by decide) (by decide)
    [DBValue.intVal 1, DBValue.textVal "cat", DBValue.textVal "chat"] (by decide)

/-- C10: with an empty or all-whitespace query, `/search` does not
short-circuit: it opens a connection and runs the statement with pattern
`%%`, which matches exactly the rows whose searched column is non-NULL; it
returns null precisely when every row's searched column is NULL, and
otherwise its result is the shaped first row with a non-NULL value there. -/
theorem spec_C10 (db : DB) (lang q : String) (hs : lang ∈ db.schema)
    (hq : pyStrip q = "") :
    Effect.openConn ∈ (search_translation (some db) lang q).2 ∧
    Effect.execQuery ∈ (search_translation (some db) lang q).2 ∧
    ((search_translation (some db) lang q).1 = Except.ok none ↔
      ∀ row ∈ db.rows, cellText db lang row = none) ∧
    ∀ row, db.rows.find? (fun r => (cellText db lang r).isSome) = some row →
      (search_translation (some db) lang q).1 = (shape_entry db.schema row).map some := by
  have hpat : ("%" ++ pyStrip q ++ "%").data = ['%', '%'] := by rw [hq]; decide
  have hpred : row_matches db ("%" ++ pyStrip q ++ "%") lang =
      (fun r => (cellText db lang r).isSome) := by
    funext r
    unfold row_matches
    cases hct : cellText db lang r with
    | none => rfl
    | some s =>
        show likeMatchL ("%" ++ pyStrip q ++ "%").data s.data = true
        rw [hpat]
        exact likeMatchL_percent_percent s.data
  refine ⟨?_, ?_, ?_, ?_⟩
  · rw [search_translation_some_trace]; decide
  · rw [search_translation_some_trace]; decide
  · rw [search_result_cases db lang q hs, hpred]
    cases hfind : db.rows.find? (fun r => (cellText db lang r).isSome) with
    | none =>
        refine iff_of_true rfl ?_
        rw [List.find?_eq_none] at hfind
        intro row hrow
        have hns := hfind row hrow
        simpa using hns
    | some row =>
        refine iff_of_false ?_ ?_
        · show ¬ (shape_entry db.schema row).map some = Except.ok none
          cases hshape : shape_entry db.schema row with
          | ok e => simp [Except.map]
          | error err => simp [Except.map]
        · intro hall
          have hsome := List.find?_some hfind
          have hnone := hall row (List.mem_of_find?_eq_some hfind)
          rw [hnone] at hsome
          simp at hsome
  · intro row hfind
    rw [search_result_cases db lang q hs, hpred, hfind]

/-- Witness for C10 at a concrete store and whitespace query. -/
theorem spec_C10_witness :
    Effect.openConn ∈ (search_translation (some dbC10) "english" " ").2 ∧
    Effect.execQuery ∈ (search_translation (some dbC10) "english" " ").2 ∧
    ((search_translation (some dbC10) "english" " ").1 = Except.ok none ↔
      ∀ row ∈ dbC10.rows, cellText dbC10 "english" row = none) ∧
    ∀ row, dbC10.rows.find? (fun r => (cellText dbC10 "english" r).isSome) = some row →
      (search_translation (some dbC10) "english" " ").1 =
        (shape_entry dbC10.schema row).map some :=
  spec_C10 dbC10 "english" " " (by decide) (by decide)

/-- C2 counterexample: on the scenario store taken literally (identifier
column named `id`), `/search/english/CA` does not return the claimed entry:
`RawDBEntry` requires the exact key `ID`, so validation fails. -/
theorem spec_C2_counterexample :
    (search_translation (some dbC2_lower) "english" "CA").1 =
      Except.error (ApiError.validationError "ID") := by decide

/-- C2 amended: with the identifier column named `ID` (as the code's
`RawDBEntry` and `/test-db` diagnostic require), the scenario holds:
`/search/english/CA` returns entry 1 with both translations,
`/suggest/french/ch` returns `["chat"]`, and `/search/english/xyz` returns
null. -/
theorem spec_C2_amended :
    (search_translation (some dbC2) "english" "CA").1 =
      Except.ok (some ⟨1, [("english", some "cat"), ("french", some "chat")]⟩) ∧
    (get_search_suggestions (some dbC2) "french" "ch").1 = Except.ok ["chat"] ∧
    (search_translation (some dbC2) "english" "xyz").1 = Except.ok none := by
  exact ⟨by decide, by decide, by decide⟩

end DictApi
